import Mathlib

/-!
Shallow embedding of the semaroute routing decision engine: the routing
policies (`internal/policies`: BasePolicy, FailoverPolicy, CostBasedPolicy)
and the provider health monitor (`internal/health`).

Modelling conventions:
* Go `float64` amounts (costs, weights, scores, confidences, smoothed
  latencies) are exact rationals `ℚ`; `time.Duration` values are integer
  nanoseconds `ℤ` (and `ℚ` where the source stores the result of float
  arithmetic back into a `Duration`).
* A Go `(value, error)` pair is an `Option`: `none` is the error case.
* A Go `map[string]Provider` is an association list
  `List (String × Provider)`; the list order stands for one iteration
  order of the map, and indexing is `List.lookup`.
* Go's `time.Time` zero value is `none : Option ℤ`; `time.Now()` is an
  explicit `now : ℤ` parameter threaded through the stateful methods.
-/

namespace Semaroute

/-- One chat message (`internal/models/models.go`, `Message`); the routing
engine reads none of its fields, only the length of the message list. -/
structure Message where
  role : String
  content : String
deriving Repr, DecidableEq

/-- `models.ChatRequest`, restricted to the two fields the routing engine
reads (`Model`, `Messages`); the remaining fields (stream flag, sampling
parameters, ids, …) are never consulted by the policies and are reached by
the abstract estimate functions only through the whole-request argument. -/
structure ChatRequest where
  model : String
  messages : List Message
deriving Repr, DecidableEq

/-- `models.HealthStatus` (`Healthy`, `Latency`, `Error`); the `LastCheck`
wall-clock timestamp is not modelled. Latency is `ℚ` nanoseconds because
the health checker stores measured durations there. -/
structure HealthStatus where
  healthy : Bool
  latency : ℚ
  error : String
deriving Repr, DecidableEq

/-- The slice of the `providers.Provider` interface that the routing
policies consult: `GetModels` (fallible), `IsHealthy`, `GetCostEstimate`
(fallible), `GetLatencyEstimate` (fallible). Per the spec the estimates
are pure functions of the request. -/
structure Provider where
  getModels : Option (List String)
  isHealthy : Bool
  getCostEstimate : ChatRequest → Option ℚ
  getLatencyEstimate : ChatRequest → Option ℤ

/-- `policies.RoutingDecision`. -/
structure RoutingDecision where
  providerName : String
  model : String
  reason : String
  estimatedCost : ℚ := 0
  estimatedLatency : ℤ := 0
  confidence : ℚ
  fallback : Bool
deriving Repr, DecidableEq

/-- `BasePolicy.ValidateRequest`: `some msg` is the returned error,
`none` is success. -/
def validateRequest (req : ChatRequest) : Option String :=
  if req.model = "" then some "model is required"
  else if req.messages = [] then some "at least one message is required"
  else none

/-- `BasePolicy.providerSupportsModel`: false when `GetModels` fails,
otherwise a linear scan for the exact model string. -/
def providerSupportsModel (p : Provider) (model : String) : Bool :=
  match p.getModels with
  | none => false
  | some ms => ms.contains model

/-- `BasePolicy.getHealthyProviders`: keep exactly the healthy entries. -/
def getHealthyProviders (avail : List (String × Provider)) :
    List (String × Provider) :=
  avail.filter (fun np => np.2.isHealthy)

/-! ### Failover policy (`internal/policies`, FailoverPolicy) -/

/-- `FailoverPolicy` state: primary name, ordered backup names, the
failover cool-down (`failoverDelay`, nanoseconds) and the last-failover
timestamp (`none` = Go's zero `time.Time`, i.e. never failed over).
The `healthCheckInterval` field is never read and is omitted. -/
structure FailoverPolicy where
  primaryProvider : String
  backupProviders : List String
  failoverDelay : ℤ
  lastFailover : Option ℤ
deriving Repr, DecidableEq

/-- `NewFailoverPolicy`: 30 s cool-down, zero last-failover time. -/
def newFailoverPolicy (primary : String) (backups : List String) :
    FailoverPolicy :=
  { primaryProvider := primary
    backupProviders := backups
    failoverDelay := 30 * 1000000000
    lastFailover := none }

/-- `FailoverPolicy.shouldUsePrimary` at wall-clock instant `now`:
true when no failover was ever recorded, or when strictly more than
`failoverDelay` has elapsed since the recorded one (`time.Since(t) >
delay`). -/
def shouldUsePrimary (p : FailoverPolicy) (now : ℤ) : Bool :=
  match p.lastFailover with
  | none => true
  | some t => decide (now - t > p.failoverDelay)

/-- `FailoverPolicy.MarkFailover` at instant `now`: records the timestamp
only when the failing provider is the primary. -/
def markFailover (p : FailoverPolicy) (providerName : String) (now : ℤ) :
    FailoverPolicy :=
  if providerName = p.primaryProvider then { p with lastFailover := some now }
  else p

/-- The backup loop of `FailoverPolicy.DecideRoute`: scan the given backup
names in order, choose the first that is present in the map, healthy and
supports the model (confidence 0.8, fallback true); otherwise fail. -/
def tryBackups (req : ChatRequest) (avail : List (String × Provider)) :
    List String → Except String RoutingDecision
  | [] => .error ("no available providers for model " ++ req.model)
  | b :: rest =>
    match avail.lookup b with
    | some prov =>
      if prov.isHealthy && providerSupportsModel prov req.model then
        .ok { providerName := b
              model := req.model
              reason := "Using backup provider " ++ b ++ " (primary unavailable)"
              confidence := 8/10
              fallback := true }
      else tryBackups req avail rest
    | none => tryBackups req avail rest

/-- `FailoverPolicy.DecideRoute` at instant `now`: validate, then try the
primary under `shouldUsePrimary`, then the backups in order. -/
def failoverDecideRoute (p : FailoverPolicy) (now : ℤ) (req : ChatRequest)
    (avail : List (String × Provider)) : Except String RoutingDecision :=
  match validateRequest req with
  | some e => .error ("invalid request: " ++ e)
  | none =>
    if shouldUsePrimary p now then
      match avail.lookup p.primaryProvider with
      | some prov =>
        if prov.isHealthy && providerSupportsModel prov req.model then
          .ok { providerName := p.primaryProvider
                model := req.model
                reason := "Primary provider is healthy and available"
                confidence := 1
                fallback := false }
        else tryBackups req avail p.backupProviders
      | none => tryBackups req avail p.backupProviders
    else tryBackups req avail p.backupProviders

/-! ### Cost-based policy (`internal/policies`, CostBasedPolicy) -/

/-- `CostBasedPolicy` configuration, with the defaults installed by
`NewCostBasedPolicy`: 5 s latency ceiling and weights 0.6 / 0.3 / 0.1. -/
structure CostBasedPolicy where
  maxLatencyThreshold : ℤ := 5 * 1000000000
  costWeight : ℚ := 6/10
  latencyWeight : ℚ := 3/10
  healthWeight : ℚ := 1/10
deriving Repr, DecidableEq

/-- `NewCostBasedPolicy`. -/
def newCostBasedPolicy : CostBasedPolicy := {}

/-- Go's `time.Duration.Milliseconds()`: nanoseconds divided by 10^6,
truncated toward zero. -/
def durationMilliseconds (d : ℤ) : ℤ := Int.tdiv d 1000000

/-- The per-candidate record the cost-based policy builds (`providerScore`
in `DecideRoute`). The `fmt.Sprintf` diagnostic text is abstracted to a
fixed marker: no property of the engine reads it. -/
structure ProviderScore where
  name : String
  score : ℚ
  cost : ℚ
  latency : ℤ
  reason : String
deriving Repr, DecidableEq

/-- The composite score: `cost·costWeight + latencySeconds·latencyWeight +
healthScore`, where the latency in seconds is `Milliseconds()/1000` and the
health penalty is the literal 0 of the source. -/
def scoreOf (p : CostBasedPolicy) (cost : ℚ) (latency : ℤ) : ℚ :=
  cost * p.costWeight
    + (durationMilliseconds latency : ℚ) / 1000 * p.latencyWeight + 0

/-- The scoring loop of `CostBasedPolicy.DecideRoute` over the healthy
candidates, in iteration order: skip a candidate that does not support the
model or whose cost estimate fails; when the latency estimate fails use the
ceiling in its place; skip a candidate whose latency is strictly above the
ceiling; otherwise emit its score record. -/
def scoreCandidates (p : CostBasedPolicy) (req : ChatRequest)
    (healthy : List (String × Provider)) : List ProviderScore :=
  healthy.filterMap (fun np =>
    if providerSupportsModel np.2 req.model then
      match np.2.getCostEstimate req with
      | none => none
      | some cost =>
        let latency := (np.2.getLatencyEstimate req).getD p.maxLatencyThreshold
        if latency > p.maxLatencyThreshold then none
        else some { name := np.1
                    score := scoreOf p cost latency
                    cost := cost
                    latency := latency
                    reason := "cost, latency and health diagnostics" }
    else none)

/-- The comparison the source sorts by (`scores[i].score < scores[j].score`
under `sort.Slice`); as the sort may reorder equal scores arbitrarily, the
embedding uses the reflexive closure and a stable insertion sort, which
realises one of the admissible outcomes. -/
def scoreLE (a b : ProviderScore) : Prop := a.score ≤ b.score

instance : DecidableRel scoreLE :=
  fun a b => inferInstanceAs (Decidable (a.score ≤ b.score))

instance : IsTotal ProviderScore scoreLE :=
  ⟨fun a b => le_total a.score b.score⟩

instance : IsTrans ProviderScore scoreLE :=
  ⟨fun _ _ _ h1 h2 => le_trans h1 h2⟩

/-- The candidate list sorted ascending by score (`sort.Slice`). -/
def sortedScores (p : CostBasedPolicy) (req : ChatRequest)
    (avail : List (String × Provider)) : List ProviderScore :=
  (scoreCandidates p req (getHealthyProviders avail)).insertionSort scoreLE

/-- `CostBasedPolicy.DecideRoute`: validate; keep healthy providers (empty
→ "no healthy providers available"); score the survivors (empty → "no
suitable providers found for model X"); sort ascending and pick index 0;
confidence is 1.0 with a single survivor, and otherwise
`0.8 + 0.2·(secondScore − bestScore)/bestScore` clamped to ≤ 1.0 whenever
the runner-up strictly trails — over float64 a zero best score makes that
quotient +∞, which the clamp turns into 1.0, written out here as the
explicit `best.score = 0` branch — and stays 1.0 when the two leading
scores are equal. The sorted list is empty exactly when the score list is,
so matching on it realises the source's `len(scores) == 0` test. -/
def costDecideRoute (p : CostBasedPolicy) (req : ChatRequest)
    (avail : List (String × Provider)) : Except String RoutingDecision :=
  match validateRequest req with
  | some e => .error ("invalid request: " ++ e)
  | none =>
    let healthy := getHealthyProviders avail
    if healthy.isEmpty then .error "no healthy providers available"
    else
      match sortedScores p req avail with
      | [] => .error ("no suitable providers found for model " ++ req.model)
      | best :: rest =>
        let confidence : ℚ :=
          match rest with
          | [] => 1
          | second :: _ =>
            if second.score - best.score > 0 then
              if best.score = 0 then 1
              else min 1 (8/10 + 2/10 * ((second.score - best.score) / best.score))
            else 1
        .ok { providerName := best.name
              model := req.model
              reason := best.reason
              estimatedCost := best.cost
              estimatedLatency := best.latency
              confidence := confidence
              fallback := false }

/-- `CostBasedPolicy.SetWeights`: reject (and leave the stored weights
unchanged) when the raw sum is ≤ 0, otherwise store the normalized
weights. The pair mirrors the Go method's (mutated receiver, error)
behaviour. -/
def setWeights (p : CostBasedPolicy) (cost latency health : ℚ) :
    CostBasedPolicy × Option String :=
  let total := cost + latency + health
  if total ≤ 0 then (p, some "weights must sum to a positive number")
  else ({ p with costWeight := cost / total
                 latencyWeight := latency / total
                 healthWeight := health / total }, none)

/-! ### Health monitor (`internal/health`, HealthChecker) -/

/-- `health.ProviderMetrics`; counters as naturals, durations as `ℚ`
nanoseconds (`AverageLatency` stores the result of float arithmetic), the
`LastCheck` wall-clock timestamp not modelled. `AddProvider` installs the
zero record. -/
structure ProviderMetrics where
  totalChecks : ℕ := 0
  successfulChecks : ℕ := 0
  failedChecks : ℕ := 0
  lastLatency : ℚ := 0
  averageLatency : ℚ := 0
  uptime : ℚ := 0
deriving Repr, DecidableEq

/-- The outcome of one probe of one provider: whether `GetModels`
succeeded, the measured wall-clock latency, and the error text (empty on
success). -/
structure CheckOutcome where
  success : Bool
  latency : ℚ
  errText : String
deriving Repr, DecidableEq

/-- `HealthChecker.checkProvider` on one provider's metrics record and
health status: bump the total counter and last latency; on success bump
the success counter and set the provider healthy, on failure bump the
failure counter and set it unhealthy with the error text; recompute uptime
(the `TotalChecks > 0` guard of the source); finally, whenever any success
has ever been counted, fold the probe's latency into the smoothed average
— seeding it outright when the stored average is exactly 0, otherwise
`avg' = avg·(1−α) + latest·α` with α = 0.1. -/
def checkProvider (m : ProviderMetrics) (_h : HealthStatus) (o : CheckOutcome) :
    ProviderMetrics × HealthStatus :=
  let m1 := { m with totalChecks := m.totalChecks + 1, lastLatency := o.latency }
  let mh2 :=
    if o.success then
      ({ m1 with successfulChecks := m1.successfulChecks + 1 },
       ({ healthy := true, latency := o.latency, error := "" } : HealthStatus))
    else
      ({ m1 with failedChecks := m1.failedChecks + 1 },
       ({ healthy := false, latency := o.latency, error := o.errText } : HealthStatus))
  let m2 := mh2.1
  let m3 :=
    if m2.totalChecks > 0 then
      { m2 with uptime := (m2.successfulChecks : ℚ) / (m2.totalChecks : ℚ) * 100 }
    else m2
  let m4 :=
    if m3.successfulChecks > 0 then
      if m3.averageLatency = 0 then { m3 with averageLatency := o.latency }
      else { m3 with averageLatency :=
               m3.averageLatency * (1 - 1/10) + o.latency * (1/10) }
    else m3
  (m4, mh2.2)

/-- A sequence of probes of one provider, oldest first. -/
def runChecks (st : ProviderMetrics × HealthStatus) (os : List CheckOutcome) :
    ProviderMetrics × HealthStatus :=
  os.foldl (fun st o => checkProvider st.1 st.2 o) st

/-- The metrics record `AddProvider` installs: all zeros. -/
def initMetrics : ProviderMetrics := {}

/-- The health status a fresh `BaseProvider` starts with: healthy. -/
def initHealth : HealthStatus := { healthy := true, latency := 0, error := "" }

/-! ### Concrete scenario of the end-to-end spec example -/

/-- The request of the end-to-end scenario: a model both providers serve
and one message. -/
def reqAB : ChatRequest :=
  { model := "m", messages := [{ role := "user", content := "hi" }] }

/-- Provider A of the scenario: healthy, cost estimate 0.01, latency
estimate 200 ms. -/
def provA : Provider :=
  { getModels := some ["m"]
    isHealthy := true
    getCostEstimate := fun _ => some (1/100)
    getLatencyEstimate := fun _ => some (200 * 1000000) }

/-- Provider B of the scenario: healthy, cost estimate 0.03, latency
estimate 100 ms. -/
def provB : Provider :=
  { getModels := some ["m"]
    isHealthy := true
    getCostEstimate := fun _ => some (3/100)
    getLatencyEstimate := fun _ => some (100 * 1000000) }

/-- The provider set of the scenario, in one iteration order. -/
def availAB : List (String × Provider) := [("A", provA), ("B", provB)]

/-- The decision the cost-based policy produces on the scenario: provider
B, whose composite score 0.048 is below A's 0.066, with confidence
`0.8 + 0.2·((0.066 − 0.048)/0.048) = 0.875` and no fallback. -/
def decisionAB : RoutingDecision :=
  { providerName := "B"
    model := "m"
    reason := "cost, latency and health diagnostics"
    estimatedCost := 3/100
    estimatedLatency := 100000000
    confidence := 7/8
    fallback := false }

/-- Provider A's score record in the scenario: 0.01·0.6 + 0.2·0.3 = 0.066. -/
def scoreRecA : ProviderScore :=
  { name := "A", score := 33/500, cost := 1/100, latency := 200000000
    reason := "cost, latency and health diagnostics" }

/-- Provider B's score record in the scenario: 0.03·0.6 + 0.1·0.3 = 0.048. -/
def scoreRecB : ProviderScore :=
  { name := "B", score := 6/125, cost := 3/100, latency := 100000000
    reason := "cost, latency and health diagnostics" }

/-- A provider identical in estimates to its twin `provD`: cost 0.01,
latency 100 ms — two of these produce equal composite scores. -/
def provC : Provider :=
  { getModels := some ["m"]
    isHealthy := true
    getCostEstimate := fun _ => some (1/100)
    getLatencyEstimate := fun _ => some (100 * 1000000) }

/-- The twin of `provC` with the same estimates. -/
def provD : Provider :=
  { getModels := some ["m"]
    isHealthy := true
    getCostEstimate := fun _ => some (1/100)
    getLatencyEstimate := fun _ => some (100 * 1000000) }

/-- Two equal-score candidates. -/
def availCD : List (String × Provider) := [("C", provC), ("D", provD)]

/-- An unhealthy provider that would otherwise serve the model. -/
def provDown : Provider :=
  { getModels := some ["m"]
    isHealthy := false
    getCostEstimate := fun _ => some (1/100)
    getLatencyEstimate := fun _ => some (100 * 1000000) }

/-- A healthy provider that serves a different model only. -/
def provOther : Provider :=
  { getModels := some ["other"]
    isHealthy := true
    getCostEstimate := fun _ => some (1/100)
    getLatencyEstimate := fun _ => some (100 * 1000000) }

/-- A healthy provider that serves the requested model. -/
def provUp : Provider :=
  { getModels := some ["m"]
    isHealthy := true
    getCostEstimate := fun _ => some (2/100)
    getLatencyEstimate := fun _ => some (150 * 1000000) }

/-- Failover scenario set: primary "P" down, first backup "B1" without the
model, second backup "B2" healthy and serving it. -/
def availFO : List (String × Provider) :=
  [("P", provDown), ("B1", provOther), ("B2", provUp)]

/-- Failover policy with primary "P" and backups ["B1", "B2"]. -/
def fpPB : FailoverPolicy := newFailoverPolicy "P" ["B1", "B2"]

/-- Failover policy with primary "P" and a single backup. -/
def fp1 : FailoverPolicy := newFailoverPolicy "P" ["B1"]

/-- A request naming no model. -/
def reqNoModel : ChatRequest :=
  { model := "", messages := [{ role := "user", content := "hi" }] }

/-- A successful probe with the given measured latency. -/
def okProbe (l : ℚ) : CheckOutcome :=
  { success := true, latency := l, errText := "" }

/-- A failed probe with the given measured latency and error text. -/
def failProbe (l : ℚ) (e : String) : CheckOutcome :=
  { success := false, latency := l, errText := e }

/-- Three successful probes followed by one failed probe. -/
def osThreeOne : List CheckOutcome :=
  [okProbe 100, okProbe 100, okProbe 100, failProbe 50 "timeout"]

/-- A metrics record after one success and one failure, smoothed average
100 ns. -/
def mW : ProviderMetrics :=
  { totalChecks := 2, successfulChecks := 1, failedChecks := 1
    lastLatency := 100, averageLatency := 100, uptime := 50 }

/-- The qualifying test of the failover scan, as the spec phrases it: the
name is present in the map, healthy, and supports the model. -/
def qualifies (avail : List (String × Provider)) (name model : String) : Bool :=
  match avail.lookup name with
  | some prov => prov.isHealthy && providerSupportsModel prov model
  | none => false

/-! ### General lemmas about the cost-based policy -/

/-- Shape of every successful cost-based decision: the sorted score list
is nonempty, the decision copies its head's fields, the request was valid,
fallback is false, and the confidence follows the runner-up rule. -/
theorem costDecideRoute_ok_shape {p : CostBasedPolicy} {req : ChatRequest}
    {avail : List (String × Provider)} {d : RoutingDecision}
    (h : costDecideRoute p req avail = .ok d) :
    ∃ b rest, sortedScores p req avail = b :: rest
      ∧ d.providerName = b.name ∧ d.model = req.model ∧ d.reason = b.reason
      ∧ d.estimatedCost = b.cost ∧ d.estimatedLatency = b.latency
      ∧ d.fallback = false ∧ validateRequest req = none
      ∧ d.confidence = (match rest with
          | [] => (1 : ℚ)
          | second :: _ =>
            if second.score - b.score > 0 then
              if b.score = 0 then 1
              else min 1 (8/10 + 2/10 * ((second.score - b.score) / b.score))
            else 1) := by
  cases hval : validateRequest req with
  | some e => simp [costDecideRoute, hval] at h
  | none =>
    by_cases hh : (getHealthyProviders avail).isEmpty = true
    · simp [costDecideRoute, hval, hh] at h
    · cases hss : sortedScores p req avail with
      | nil => simp [costDecideRoute, hval, hh, hss] at h
      | cons best rest =>
        refine ⟨best, rest, rfl, ?_⟩
        simp only [costDecideRoute, hval, hh, hss, if_neg, Bool.false_eq_true,
          if_false, Except.ok.injEq] at h
        subst h
        cases rest <;> simp

/-- Every surviving candidate's effective latency is within the ceiling. -/
theorem scoreCandidates_latency_le {p : CostBasedPolicy} {req : ChatRequest}
    {healthy : List (String × Provider)} {c : ProviderScore}
    (hc : c ∈ scoreCandidates p req healthy) :
    c.latency ≤ p.maxLatencyThreshold := by
  rw [scoreCandidates, List.mem_filterMap] at hc
  obtain ⟨np, _, hf⟩ := hc
  cases hsm : providerSupportsModel np.2 req.model with
  | false => simp [hsm] at hf
  | true =>
    cases hce : np.2.getCostEstimate req with
    | none => simp [hsm, hce] at hf
    | some cost =>
      simp only [hsm, hce, if_true] at hf
      by_cases hl :
          (np.2.getLatencyEstimate req).getD p.maxLatencyThreshold
            > p.maxLatencyThreshold
      · simp [hl] at hf
      · simp only [hl, if_neg, if_false, Option.some.injEq] at hf
        obtain rfl := hf
        exact le_of_not_lt hl

/-- A healthy, supporting candidate whose latency estimate is unavailable
survives with the ceiling as its latency. -/
theorem scoreCandidates_none_mem {p : CostBasedPolicy} {req : ChatRequest}
    {healthy : List (String × Provider)} {np : String × Provider} {co : ℚ}
    (hm : np ∈ healthy)
    (hsm : providerSupportsModel np.2 req.model = true)
    (hce : np.2.getCostEstimate req = some co)
    (hle : np.2.getLatencyEstimate req = none) :
    ({ name := np.1, score := scoreOf p co p.maxLatencyThreshold, cost := co
       latency := p.maxLatencyThreshold
       reason := "cost, latency and health diagnostics" } : ProviderScore)
      ∈ scoreCandidates p req healthy := by
  rw [scoreCandidates, List.mem_filterMap]
  exact ⟨np, hm, by simp [hsm, hce, hle]⟩

/-- The head of the sorted score list is a surviving candidate of minimal
score. -/
theorem sortedScores_head_min {p : CostBasedPolicy} {req : ChatRequest}
    {avail : List (String × Provider)} {b : ProviderScore}
    {rest : List ProviderScore}
    (hss : sortedScores p req avail = b :: rest) :
    b ∈ scoreCandidates p req (getHealthyProviders avail)
    ∧ ∀ c ∈ scoreCandidates p req (getHealthyProviders avail),
        b.score ≤ c.score := by
  have hperm :=
    List.perm_insertionSort scoreLE
      (scoreCandidates p req (getHealthyProviders avail))
  rw [sortedScores] at hss
  constructor
  · exact hperm.subset (hss ▸ List.mem_cons_self b rest)
  · intro c hc
    have hcs : c ∈ b :: rest := by
      rw [← hss]; exact hperm.symm.subset hc
    have hsorted : List.Sorted scoreLE (b :: rest) := by
      rw [← hss]; exact List.sorted_insertionSort scoreLE _
    rcases List.mem_cons.mp hcs with rfl | hcr
    · exact le_refl _
    · exact List.rel_of_sorted_cons hsorted c hcr

/-- Evaluation of the end-to-end scenario: provider B wins. -/
theorem costDecideRoute_AB :
    costDecideRoute newCostBasedPolicy reqAB availAB = .ok decisionAB := by
  norm_num [costDecideRoute, sortedScores, scoreCandidates, getHealthyProviders,
    newCostBasedPolicy, reqAB, availAB, provA, provB, providerSupportsModel,
    scoreOf, durationMilliseconds, List.insertionSort, List.orderedInsert,
    scoreLE, Int.tdiv, decisionAB, min_def]
  simp [validateRequest]

/-- Evaluation of the scenario's sorted score list: B then A. -/
theorem sortedScores_AB :
    sortedScores newCostBasedPolicy reqAB availAB = [scoreRecB, scoreRecA] := by
  norm_num [sortedScores, scoreCandidates, getHealthyProviders,
    newCostBasedPolicy, reqAB, availAB, provA, provB, providerSupportsModel,
    scoreOf, durationMilliseconds, List.insertionSort, List.orderedInsert,
    scoreLE, Int.tdiv, scoreRecA, scoreRecB]

/-! ### The claims -/

/-- C1, counterexample: in the end-to-end scenario (A: cost 0.01, latency
200 ms; B: cost 0.03, latency 100 ms; default weights and ceiling) the
cost-based DecideRoute chooses provider B, not A: A's composite score
0.01·0.6 + 0.2·0.3 = 0.066 is higher than B's 0.03·0.6 + 0.1·0.3 = 0.048,
so the claim that A is "the lower composite score" and is chosen fails. -/
theorem claim1_counterexample :
    (costDecideRoute newCostBasedPolicy reqAB availAB).map
      (fun d => d.providerName) = .ok "B"
    ∧ "B" ≠ "A" := by
  rw [costDecideRoute_AB]
  exact ⟨rfl, by decide⟩

/-- C1, amended: in the end-to-end scenario DecideRoute succeeds and
chooses provider B — the candidate with the lower composite score
(0.048 < 0.066) — with fallback = false. -/
theorem claim1_costBased_picks_B :
    costDecideRoute newCostBasedPolicy reqAB availAB = .ok decisionAB
    ∧ decisionAB.providerName = "B"
    ∧ decisionAB.fallback = false
    ∧ scoreOf newCostBasedPolicy (3/100) (100 * 1000000)
        < scoreOf newCostBasedPolicy (1/100) (200 * 1000000) := by
  refine ⟨costDecideRoute_AB, rfl, rfl, ?_⟩
  norm_num [scoreOf, newCostBasedPolicy, durationMilliseconds, Int.tdiv]

/-- C2: whenever the cost-based DecideRoute succeeds, the chosen provider
is a surviving candidate whose composite score is ≤ every surviving
candidate's score; every surviving candidate's latency is within the
configured ceiling; and a healthy, supporting candidate with an available
cost estimate but no latency estimate survives scored with the ceiling as
its latency. -/
theorem claim2_chosen_score_minimal {p : CostBasedPolicy} {req : ChatRequest}
    {avail : List (String × Provider)} {d : RoutingDecision}
    (h : costDecideRoute p req avail = .ok d) :
    (∃ b ∈ scoreCandidates p req (getHealthyProviders avail),
        b.name = d.providerName ∧ b.cost = d.estimatedCost
        ∧ b.latency = d.estimatedLatency
        ∧ ∀ c ∈ scoreCandidates p req (getHealthyProviders avail),
            b.score ≤ c.score)
    ∧ (∀ c ∈ scoreCandidates p req (getHealthyProviders avail),
        c.latency ≤ p.maxLatencyThreshold)
    ∧ (∀ np ∈ getHealthyProviders avail, ∀ co : ℚ,
        providerSupportsModel np.2 req.model = true →
        np.2.getCostEstimate req = some co →
        np.2.getLatencyEstimate req = none →
        ({ name := np.1, score := scoreOf p co p.maxLatencyThreshold
           cost := co, latency := p.maxLatencyThreshold
           reason := "cost, latency and health diagnostics" } : ProviderScore)
          ∈ scoreCandidates p req (getHealthyProviders avail)) := by
  obtain ⟨b, rest, hss, hname, _, _, hcost, hlat, _, _, _⟩ :=
    costDecideRoute_ok_shape h
  obtain ⟨hbmem, hbmin⟩ := sortedScores_head_min hss
  exact ⟨⟨b, hbmem, hname.symm, hcost.symm, hlat.symm, hbmin⟩,
    fun c hc => scoreCandidates_latency_le hc,
    fun np hnp co hsm hce hle => scoreCandidates_none_mem hnp hsm hce hle⟩

/-- C2, witness: the minimality and ceiling facts at the concrete
end-to-end scenario. -/
theorem claim2_witness :
    (∃ b ∈ scoreCandidates newCostBasedPolicy reqAB
        (getHealthyProviders availAB),
        b.name = decisionAB.providerName ∧ b.cost = decisionAB.estimatedCost
        ∧ b.latency = decisionAB.estimatedLatency
        ∧ ∀ c ∈ scoreCandidates newCostBasedPolicy reqAB
            (getHealthyProviders availAB), b.score ≤ c.score)
    ∧ (∀ c ∈ scoreCandidates newCostBasedPolicy reqAB
        (getHealthyProviders availAB),
        c.latency ≤ newCostBasedPolicy.maxLatencyThreshold)
    ∧ (∀ np ∈ getHealthyProviders availAB, ∀ co : ℚ,
        providerSupportsModel np.2 reqAB.model = true →
        np.2.getCostEstimate reqAB = some co →
        np.2.getLatencyEstimate reqAB = none →
        ({ name := np.1
           score := scoreOf newCostBasedPolicy co
             newCostBasedPolicy.maxLatencyThreshold
           cost := co, latency := newCostBasedPolicy.maxLatencyThreshold
           reason := "cost, latency and health diagnostics" } : ProviderScore)
          ∈ scoreCandidates newCostBasedPolicy reqAB
              (getHealthyProviders availAB)) :=
  claim2_chosen_score_minimal costDecideRoute_AB

/-- C3, counterexample: with two surviving candidates of equal composite
score (twins C and D, both 0.036) the decision's confidence is 1.0, not
the 0.8 the claim requires for a tie. -/
theorem claim3_counterexample :
    (costDecideRoute newCostBasedPolicy reqAB availCD).map
      (fun d => d.confidence) = .ok 1
    ∧ (sortedScores newCostBasedPolicy reqAB availCD).map
        (fun c => c.score) = [9/250, 9/250]
    ∧ (1 : ℚ) ≠ 8/10 := by
  refine ⟨?_, ?_, by norm_num⟩
  · norm_num [costDecideRoute, sortedScores, scoreCandidates,
      getHealthyProviders, newCostBasedPolicy, reqAB, availCD, provC, provD,
      providerSupportsModel, scoreOf, durationMilliseconds,
      List.insertionSort, List.orderedInsert, scoreLE, Int.tdiv, Except.map]
    simp [validateRequest]
  · norm_num [sortedScores, scoreCandidates, getHealthyProviders,
      newCostBasedPolicy, reqAB, availCD, provC, provD,
      providerSupportsModel, scoreOf, durationMilliseconds,
      List.insertionSort, List.orderedInsert, scoreLE, Int.tdiv]

/-- C3, amended: for every successful cost-based decision, a single
surviving candidate gives confidence 1.0; with two or more survivors the
confidence is `min 1 (0.8 + 0.2·(secondScore − bestScore)/bestScore)`
when the runner-up strictly trails and the best score is nonzero, and is
1.0 both when the two leading scores are equal and when the best score is
zero (the float quotient +∞ is clamped to 1.0). -/
theorem claim3_confidence_amended {p : CostBasedPolicy} {req : ChatRequest}
    {avail : List (String × Provider)} {d : RoutingDecision}
    (h : costDecideRoute p req avail = .ok d) :
    (∀ b, sortedScores p req avail = [b] → d.confidence = 1)
    ∧ (∀ b s rest, sortedScores p req avail = b :: s :: rest →
        (b.score < s.score → b.score ≠ 0 →
          d.confidence = min 1 (8/10 + 2/10 * ((s.score - b.score) / b.score)))
        ∧ (b.score < s.score → b.score = 0 → d.confidence = 1)
        ∧ (s.score = b.score → d.confidence = 1)) := by
  obtain ⟨b0, rest0, hss0, _, _, _, _, _, _, _, hconf⟩ :=
    costDecideRoute_ok_shape h
  constructor
  · intro b hb
    rw [hss0] at hb
    injection hb with hb1 hb2
    subst hb1; subst hb2
    exact hconf
  · intro b s rest hb
    rw [hss0] at hb
    injection hb with hb1 hb2
    subst hb1; subst hb2
    refine ⟨fun hlt hne => ?_, fun hlt heq => ?_, fun heq => ?_⟩
    · rw [hconf]
      show (if s.score - b0.score > 0 then
              if b0.score = 0 then (1:ℚ)
              else min 1 (8/10 + 2/10 * ((s.score - b0.score) / b0.score))
            else 1)
          = min 1 (8/10 + 2/10 * ((s.score - b0.score) / b0.score))
      rw [if_pos (by linarith : s.score - b0.score > 0), if_neg hne]
    · rw [hconf]
      show (if s.score - b0.score > 0 then
              if b0.score = 0 then (1:ℚ)
              else min 1 (8/10 + 2/10 * ((s.score - b0.score) / b0.score))
            else 1) = 1
      rw [if_pos (by linarith : s.score - b0.score > 0), if_pos heq]
    · rw [hconf]
      show (if s.score - b0.score > 0 then
              if b0.score = 0 then (1:ℚ)
              else min 1 (8/10 + 2/10 * ((s.score - b0.score) / b0.score))
            else 1) = 1
      rw [if_neg (by rw [heq]; simp)]

/-- C3, witness: the runner-up rule at the concrete scenario, where B's
score 0.048 strictly trails A's 0.066 and is nonzero. -/
theorem claim3_witness :
    decisionAB.confidence
      = min 1 (8/10 + 2/10 * ((scoreRecA.score - scoreRecB.score)
          / scoreRecB.score)) := by
  have h := (claim3_confidence_amended costDecideRoute_AB).2 scoreRecB
    scoreRecA [] sortedScores_AB
  exact h.1 (by norm_num [scoreRecA, scoreRecB]) (by norm_num [scoreRecB])

/-- C10: whenever the cost-based DecideRoute succeeds, the decision's
Fallback field is false and its Model field is the request's model. -/
theorem claim10_no_fallback {p : CostBasedPolicy} {req : ChatRequest}
    {avail : List (String × Provider)} {d : RoutingDecision}
    (h : costDecideRoute p req avail = .ok d) :
    d.fallback = false ∧ d.model = req.model := by
  obtain ⟨b, rest, _, _, hmodel, _, _, _, hfb, _, _⟩ :=
    costDecideRoute_ok_shape h
  exact ⟨hfb, hmodel⟩

/-- C10, witness: the scenario decision has no fallback and carries the
requested model. -/
theorem claim10_witness :
    decisionAB.fallback = false ∧ decisionAB.model = reqAB.model :=
  claim10_no_fallback costDecideRoute_AB

/-! ### General lemmas about the failover policy -/

/-- The backup loop chooses exactly the first backup satisfying the
qualifying test. -/
theorem tryBackups_eq_find (req : ChatRequest)
    (avail : List (String × Provider)) (bs : List String) :
    tryBackups req avail bs =
      match bs.find? (fun b => qualifies avail b req.model) with
      | some b =>
        .ok { providerName := b
              model := req.model
              reason := "Using backup provider " ++ b ++ " (primary unavailable)"
              confidence := 8/10
              fallback := true }
      | none => .error ("no available providers for model " ++ req.model) := by
  induction bs with
  | nil => rfl
  | cons b rest ih =>
    rw [tryBackups]
    cases hlk : avail.lookup b with
    | none => simp [hlk, List.find?_cons, qualifies, ih]
    | some prov =>
      by_cases hq : (prov.isHealthy && providerSupportsModel prov req.model)
          = true
      · simp [hlk, hq, List.find?_cons, qualifies]
      · simp [hlk, hq, List.find?_cons, qualifies, ih]

/-- C4, counterexample: with the default 30 s cool-down, exactly 30 s
after `markFailover(primary)` the cool-down has elapsed, yet
`shouldUsePrimary` still returns false (the source compares with a strict
`>`), refuting "returns true once the cool-down has elapsed". -/
theorem claim4_counterexample :
    fp1.failoverDelay ≤ (30 * 1000000000 : ℤ) - 0
    ∧ shouldUsePrimary (markFailover fp1 "P" 0) (30 * 1000000000) = false := by
  constructor
  · decide
  · decide

/-- C4, amended: after `markFailover(primary)` at `t0`, `shouldUsePrimary`
returns false at every instant up to and including `t0 + coolDown`, and
true once strictly more than the cool-down has elapsed; `markFailover` of
any name other than the primary leaves the whole policy state — hence the
last-failover timestamp and `shouldUsePrimary` — unchanged. -/
theorem claim4_failover_cooldown (p : FailoverPolicy) (t0 now : ℤ)
    (b : String) :
    (now - t0 ≤ p.failoverDelay →
      shouldUsePrimary (markFailover p p.primaryProvider t0) now = false)
    ∧ (p.failoverDelay < now - t0 →
      shouldUsePrimary (markFailover p p.primaryProvider t0) now = true)
    ∧ (b ≠ p.primaryProvider → markFailover p b t0 = p) := by
  refine ⟨fun h => ?_, fun h => ?_, fun h => ?_⟩
  · simp [markFailover, shouldUsePrimary]
    omega
  · simp [markFailover, shouldUsePrimary]
    omega
  · simp [markFailover, h]

/-- C4, witness: one second after the failover the primary is not used;
forty seconds after it is; marking a backup changes nothing. -/
theorem claim4_witness :
    shouldUsePrimary (markFailover fp1 "P" 0) 1000000000 = false
    ∧ shouldUsePrimary (markFailover fp1 "P" 0) (40 * 1000000000) = true
    ∧ markFailover fp1 "B1" 0 = fp1 :=
  ⟨(claim4_failover_cooldown fp1 0 1000000000 "B1").1 (by decide),
   (claim4_failover_cooldown fp1 0 (40 * 1000000000) "B1").2.1 (by decide),
   (claim4_failover_cooldown fp1 0 0 "B1").2.2 (by decide)⟩

/-- C5: for every valid request, the failover DecideRoute chooses the
primary with confidence 1.0 and fallback=false when `shouldUsePrimary`
holds and the primary is present, healthy and supports the model;
otherwise it chooses the first backup, in configured order, that is
present, healthy and supports the model, with confidence 0.8 and
fallback=true, and fails with "no available providers for model X" when
none qualifies. -/
theorem claim5_failover_decision (p : FailoverPolicy) (now : ℤ)
    (req : ChatRequest) (avail : List (String × Provider))
    (hv : validateRequest req = none) :
    (shouldUsePrimary p now = true →
      qualifies avail p.primaryProvider req.model = true →
      failoverDecideRoute p now req avail =
        .ok { providerName := p.primaryProvider
              model := req.model
              reason := "Primary provider is healthy and available"
              confidence := 1
              fallback := false })
    ∧ (shouldUsePrimary p now = false
        ∨ qualifies avail p.primaryProvider req.model = false →
      failoverDecideRoute p now req avail =
        match p.backupProviders.find? (fun b => qualifies avail b req.model)
            with
        | some b =>
          .ok { providerName := b
                model := req.model
                reason := "Using backup provider " ++ b ++ " (primary unavailable)"
                confidence := 8/10
                fallback := true }
        | none => .error ("no available providers for model " ++ req.model))
    := by
  constructor
  · intro hp hq
    cases hlk : avail.lookup p.primaryProvider with
    | none => rw [qualifies, hlk] at hq; exact absurd hq (by simp)
    | some prov =>
      rw [qualifies, hlk] at hq
      have hq2 : (prov.isHealthy && providerSupportsModel prov req.model)
          = true := hq
      simp [failoverDecideRoute, hv, hp, hlk, hq2]
  · intro hor
    rcases hor with hp | hq
    · simp [failoverDecideRoute, hv, hp, tryBackups_eq_find]
    · cases hp : shouldUsePrimary p now with
      | false => simp [failoverDecideRoute, hv, hp, tryBackups_eq_find]
      | true =>
        cases hlk : avail.lookup p.primaryProvider with
        | none =>
          simp [failoverDecideRoute, hv, hp, hlk, tryBackups_eq_find]
        | some prov =>
          rw [qualifies, hlk] at hq
          have hq2 : (prov.isHealthy && providerSupportsModel prov req.model)
              = false := hq
          simp [failoverDecideRoute, hv, hp, hlk, hq2, tryBackups_eq_find]

/-- C5, witness: primary down, first backup lacking the model — the second
backup is chosen with confidence 0.8 and fallback=true. -/
theorem claim5_witness :
    failoverDecideRoute fpPB 0 reqAB availFO =
      .ok { providerName := "B2"
            model := "m"
            reason := "Using backup provider B2 (primary unavailable)"
            confidence := 8/10
            fallback := true } := by
  have h := (claim5_failover_decision fpPB 0 reqAB availFO (by decide)).2
    (Or.inr (by decide))
  rw [h]
  rfl

/-- C6: SetWeights succeeds exactly when the raw sum is positive, in which
case the stored weights are each raw weight divided by the raw sum — so
they are proportional to the raw inputs and sum to exactly 1; when the raw
sum is ≤ 0 it returns the error and leaves the stored weights unchanged. -/
theorem claim6_setWeights (p : CostBasedPolicy) (wc wl wh : ℚ) :
    (0 < wc + wl + wh →
      (setWeights p wc wl wh).2 = none
      ∧ (setWeights p wc wl wh).1.costWeight
          + (setWeights p wc wl wh).1.latencyWeight
          + (setWeights p wc wl wh).1.healthWeight = 1
      ∧ (setWeights p wc wl wh).1.costWeight * (wc + wl + wh) = wc
      ∧ (setWeights p wc wl wh).1.latencyWeight * (wc + wl + wh) = wl
      ∧ (setWeights p wc wl wh).1.healthWeight * (wc + wl + wh) = wh)
    ∧ (wc + wl + wh ≤ 0 →
      setWeights p wc wl wh
        = (p, some "weights must sum to a positive number")) := by
  constructor
  · intro h0
    have hne : wc + wl + wh ≠ 0 := ne_of_gt h0
    refine ⟨?_, ?_, ?_, ?_, ?_⟩ <;>
      simp [setWeights, not_le.mpr h0] <;> field_simp
  · intro h0
    simp [setWeights, h0]

/-- C6, witness: raw weights (3, 1, 1) normalize to (0.6, 0.2, 0.2). -/
theorem claim6_witness :
    (setWeights newCostBasedPolicy 3 1 1).2 = none
    ∧ (setWeights newCostBasedPolicy 3 1 1).1.costWeight
        + (setWeights newCostBasedPolicy 3 1 1).1.latencyWeight
        + (setWeights newCostBasedPolicy 3 1 1).1.healthWeight = 1
    ∧ (setWeights newCostBasedPolicy 3 1 1).1.costWeight * (3 + 1 + 1) = 3
    ∧ (setWeights newCostBasedPolicy 3 1 1).1.latencyWeight * (3 + 1 + 1) = 1
    ∧ (setWeights newCostBasedPolicy 3 1 1).1.healthWeight * (3 + 1 + 1) = 1 :=
  (claim6_setWeights newCostBasedPolicy 3 1 1).1 (by norm_num)

/-- C9: a request with an empty model or no messages makes both
DecideRoute implementations fail with the wrapped "invalid request" error,
and the result does not depend on the provider set at all — no provider is
consulted. -/
theorem claim9_invalid_request (cp : CostBasedPolicy) (fp : FailoverPolicy)
    (now : ℤ) (req : ChatRequest) (avail avail2 : List (String × Provider))
    (h : req.model = "" ∨ req.messages = []) :
    (∃ e, validateRequest req = some e
      ∧ costDecideRoute cp req avail = .error ("invalid request: " ++ e)
      ∧ failoverDecideRoute fp now req avail
          = .error ("invalid request: " ++ e))
    ∧ costDecideRoute cp req avail = costDecideRoute cp req avail2
    ∧ failoverDecideRoute fp now req avail
        = failoverDecideRoute fp now req avail2 := by
  have hv : ∃ e, validateRequest req = some e := by
    rw [validateRequest]
    by_cases hm : req.model = ""
    · exact ⟨_, by rw [if_pos hm]⟩
    · have hmsg : req.messages = [] := h.resolve_left hm
      exact ⟨_, by rw [if_neg hm, if_pos hmsg]⟩
  obtain ⟨e, he⟩ := hv
  refine ⟨⟨e, he, ?_, ?_⟩, ?_, ?_⟩ <;>
    simp [costDecideRoute, failoverDecideRoute, he]

/-- C9, witness: the empty-model request is rejected identically over the
scenario provider set and over the empty set. -/
theorem claim9_witness :
    (∃ e, validateRequest reqNoModel = some e
      ∧ costDecideRoute newCostBasedPolicy reqNoModel availAB
          = .error ("invalid request: " ++ e)
      ∧ failoverDecideRoute fpPB 0 reqNoModel availAB
          = .error ("invalid request: " ++ e))
    ∧ costDecideRoute newCostBasedPolicy reqNoModel availAB
        = costDecideRoute newCostBasedPolicy reqNoModel []
    ∧ failoverDecideRoute fpPB 0 reqNoModel availAB
        = failoverDecideRoute fpPB 0 reqNoModel [] :=
  claim9_invalid_request newCostBasedPolicy fpPB 0 reqNoModel availAB []
    (Or.inl rfl)

/-! ### General lemmas about the health monitor -/

/-- Every check increments the total counter. -/
theorem checkProvider_totalChecks (m : ProviderMetrics) (h : HealthStatus)
    (o : CheckOutcome) :
    (checkProvider m h o).1.totalChecks = m.totalChecks + 1 := by
  cases hs : o.success <;> simp [checkProvider, hs, apply_ite]

/-- The success counter is incremented exactly on success. -/
theorem checkProvider_successfulChecks (m : ProviderMetrics)
    (h : HealthStatus) (o : CheckOutcome) :
    (checkProvider m h o).1.successfulChecks
      = if o.success then m.successfulChecks + 1 else m.successfulChecks := by
  cases hs : o.success <;> simp [checkProvider, hs, apply_ite]

/-- After any check the stored uptime is the success ratio times 100. -/
theorem checkProvider_uptime (m : ProviderMetrics) (h : HealthStatus)
    (o : CheckOutcome) :
    (checkProvider m h o).1.uptime
      = ((checkProvider m h o).1.successfulChecks : ℚ)
        / ((checkProvider m h o).1.totalChecks : ℚ) * 100 := by
  cases hs : o.success <;> simp [checkProvider, hs, apply_ite]

/-- One check preserves successes ≤ totals. -/
theorem checkProvider_succ_le (m : ProviderMetrics) (h : HealthStatus)
    (o : CheckOutcome) (hle : m.successfulChecks ≤ m.totalChecks) :
    (checkProvider m h o).1.successfulChecks
      ≤ (checkProvider m h o).1.totalChecks := by
  cases hs : o.success <;> simp [checkProvider, hs, apply_ite] <;> omega

/-- Unfolding one probe of a probe sequence. -/
theorem runChecks_cons (st : ProviderMetrics × HealthStatus)
    (o : CheckOutcome) (os : List CheckOutcome) :
    runChecks st (o :: os) = runChecks (checkProvider st.1 st.2 o) os := by
  simp [runChecks]

/-- Splitting off the last probe of a probe sequence. -/
theorem runChecks_concat (st : ProviderMetrics × HealthStatus)
    (os : List CheckOutcome) (o : CheckOutcome) :
    runChecks st (os ++ [o])
      = checkProvider (runChecks st os).1 (runChecks st os).2 o := by
  simp [runChecks, List.foldl_append]

/-- A probe sequence preserves successes ≤ totals. -/
theorem runChecks_succ_le (os : List CheckOutcome)
    (st : ProviderMetrics × HealthStatus)
    (hle : st.1.successfulChecks ≤ st.1.totalChecks) :
    (runChecks st os).1.successfulChecks
      ≤ (runChecks st os).1.totalChecks := by
  induction os generalizing st with
  | nil => exact hle
  | cons o os ih =>
    rw [runChecks_cons]
    exact ih _ (checkProvider_succ_le _ _ _ hle)

/-- C7: after any nonempty sequence of health checks starting from the
fresh record, the stored uptime equals successfulChecks / totalChecks ×
100 and lies between 0 and 100. -/
theorem claim7_uptime (os : List CheckOutcome) (h : os ≠ []) :
    (runChecks (initMetrics, initHealth) os).1.uptime
      = ((runChecks (initMetrics, initHealth) os).1.successfulChecks : ℚ)
        / ((runChecks (initMetrics, initHealth) os).1.totalChecks : ℚ) * 100
    ∧ 0 ≤ (runChecks (initMetrics, initHealth) os).1.uptime
    ∧ (runChecks (initMetrics, initHealth) os).1.uptime ≤ 100 := by
  rcases List.eq_nil_or_concat os with rfl | ⟨L, o, rfl⟩
  · exact absurd rfl h
  · rw [List.concat_eq_append, runChecks_concat]
    have hle : (runChecks (initMetrics, initHealth) L).1.successfulChecks
        ≤ (runChecks (initMetrics, initHealth) L).1.totalChecks :=
      runChecks_succ_le L _ (by simp [initMetrics])
    have hup := checkProvider_uptime (runChecks (initMetrics, initHealth) L).1
      (runChecks (initMetrics, initHealth) L).2 o
    have h1 := checkProvider_succ_le (runChecks (initMetrics, initHealth) L).1
      (runChecks (initMetrics, initHealth) L).2 o hle
    have h2 : 0 < (checkProvider (runChecks (initMetrics, initHealth) L).1
        (runChecks (initMetrics, initHealth) L).2 o).1.totalChecks := by
      rw [checkProvider_totalChecks]; omega
    refine ⟨hup, ?_, ?_⟩
    · rw [hup]; positivity
    · rw [hup]
      have hq1 : ((checkProvider (runChecks (initMetrics, initHealth) L).1
            (runChecks (initMetrics, initHealth) L).2 o).1.successfulChecks : ℚ)
          / ((checkProvider (runChecks (initMetrics, initHealth) L).1
            (runChecks (initMetrics, initHealth) L).2 o).1.totalChecks : ℚ)
          ≤ 1 := by
        rw [div_le_one (by exact_mod_cast h2)]
        exact_mod_cast h1
      have := mul_le_mul_of_nonneg_right hq1 (by norm_num : (0:ℚ) ≤ 100)
      simpa using this

/-- C7, witness: three successes and one failure give uptime 75, within
bounds. -/
theorem claim7_witness :
    (runChecks (initMetrics, initHealth) osThreeOne).1.uptime = 75
    ∧ ((runChecks (initMetrics, initHealth) osThreeOne).1.uptime
        = ((runChecks (initMetrics, initHealth)
            osThreeOne).1.successfulChecks : ℚ)
          / ((runChecks (initMetrics, initHealth)
            osThreeOne).1.totalChecks : ℚ) * 100
      ∧ 0 ≤ (runChecks (initMetrics, initHealth) osThreeOne).1.uptime
      ∧ (runChecks (initMetrics, initHealth) osThreeOne).1.uptime ≤ 100) :=
  ⟨by norm_num [runChecks, checkProvider, osThreeOne, okProbe, failProbe,
      initMetrics, initHealth],
   claim7_uptime osThreeOne (by simp [osThreeOne])⟩

/-- C8, counterexample: after one successful probe (latency 100) the
smoothed average is 100; a following FAILED probe with latency 200 moves
the smoothed average to 100·0.9 + 200·0.1 = 110 — the failure branch does
not leave the smoothed average untouched, refuting the claim. -/
theorem claim8_counterexample :
    (checkProvider initMetrics initHealth (okProbe 100)).1.averageLatency
      = 100
    ∧ (checkProvider (checkProvider initMetrics initHealth (okProbe 100)).1
        (checkProvider initMetrics initHealth (okProbe 100)).2
        (failProbe 200 "connection refused")).1.averageLatency = 110
    ∧ (110 : ℚ) ≠ 100 := by
  norm_num [checkProvider, initMetrics, initHealth, okProbe, failProbe]

/-- C8, amended: a successful probe updates the smoothed average — seeding
it with the probe's latency whenever the stored average is exactly 0 (in
particular on the first success), otherwise `avg' = avg·(1−0.1) +
latest·0.1`; a failed probe updates total and failed counters, the last
latency and the health record, and it leaves the smoothed average
unchanged only while no successful check has ever been counted — once any
success has been recorded, a failed probe also folds its latency into the
average by the same rule. -/
theorem claim8_average_update (m : ProviderMetrics) (h : HealthStatus)
    (o : CheckOutcome) :
    (o.success = true → m.averageLatency ≠ 0 →
      (checkProvider m h o).1.averageLatency
        = m.averageLatency * (1 - 1/10) + o.latency * (1/10))
    ∧ (o.success = true → m.averageLatency = 0 →
      (checkProvider m h o).1.averageLatency = o.latency)
    ∧ (o.success = false → m.successfulChecks = 0 →
      (checkProvider m h o).1.averageLatency = m.averageLatency)
    ∧ (o.success = false → 0 < m.successfulChecks → m.averageLatency ≠ 0 →
      (checkProvider m h o).1.averageLatency
        = m.averageLatency * (1 - 1/10) + o.latency * (1/10))
    ∧ (o.success = false → 0 < m.successfulChecks → m.averageLatency = 0 →
      (checkProvider m h o).1.averageLatency = o.latency)
    ∧ (checkProvider m h o).1.lastLatency = o.latency
    ∧ (checkProvider m h o).1.totalChecks = m.totalChecks + 1
    ∧ (o.success = true →
        (checkProvider m h o).1.successfulChecks = m.successfulChecks + 1
        ∧ (checkProvider m h o).2.healthy = true)
    ∧ (o.success = false →
        (checkProvider m h o).1.failedChecks = m.failedChecks + 1
        ∧ (checkProvider m h o).1.successfulChecks = m.successfulChecks
        ∧ (checkProvider m h o).2.healthy = false
        ∧ (checkProvider m h o).2.error = o.errText) := by
  refine ⟨fun hs hne => ?_, fun hs hz => ?_, fun hs h0 => ?_,
    fun hs h0 hne => ?_, fun hs h0 hz => ?_, ?_, ?_, fun hs => ?_,
    fun hs => ?_⟩
  · simp [checkProvider, hs, hne]
  · simp [checkProvider, hs, hz]
  · simp [checkProvider, hs, h0]
  · simp [checkProvider, hs, h0, hne]
  · simp [checkProvider, hs, h0, hz]
  · cases hs : o.success <;> simp [checkProvider, hs, apply_ite]
  · exact checkProvider_totalChecks m h o
  · simp [checkProvider, hs, apply_ite]
  · simp [checkProvider, hs, apply_ite]

/-- C8, witness: a failed probe against a record with one prior success
and average 100 folds its latency 200 into the average. -/
theorem claim8_witness :
    0 < mW.successfulChecks ∧ mW.averageLatency ≠ 0
    ∧ (checkProvider mW initHealth (failProbe 200 "x")).1.averageLatency
        = mW.averageLatency * (1 - 1/10)
          + (failProbe 200 "x").latency * (1/10) :=
  ⟨by norm_num [mW], by norm_num [mW],
   (claim8_average_update mW initHealth (failProbe 200 "x")).2.2.2.1 rfl
     (by norm_num [mW]) (by norm_num [mW])⟩

end Semaroute
